import Mathlib

/-!
Shallow embedding of the OSC artifact-submission pipeline
(mock blockchain peer, submission worker, peer client, submission listener),
together with theorems checking the natural-language specification's claims
against the code.

Machine integers are modelled as `Nat` with explicit masking by `2^32`
(`&&& 0xFFFFFFFF`) where the Python code relies on fixed-width arithmetic
inside `hashlib`; strings are Lean `String`s; Python `dict`s that are built
key by key are association lists `List (String × String)`; optional /
possibly-missing dict entries are `Option` values.
-/

set_option maxRecDepth 4000

namespace OSC

/-! ### Generic string helpers (Python `in`, `.lower()`, slicing) -/

/-- Python's substring test `pat in s`, on explicit character lists. -/
def charsContains (pat : List Char) : List Char → Bool
  | [] => pat.isEmpty
  | c :: rest => pat.isPrefixOf (c :: rest) || charsContains pat rest

/-- Python's `pat in s` for strings (substring containment). -/
def strContains (s pat : String) : Bool :=
  charsContains pat.data s.data

/-- Python's slice `s[:n]` (clamping, never failing). -/
def strTake (s : String) (n : Nat) : String :=
  ⟨s.data.take n⟩

/-- Python's `s.lower()` (character-wise lowering, as in `str.lower` for the
ASCII pattern vocabulary used here). -/
def strLower (s : String) : String :=
  ⟨s.data.map Char.toLower⟩

/-! ### Byte-level helpers for `hashlib`

`str.encode()` is UTF-8 encoding; bytes are `Nat`s below 256. -/

/-- UTF-8 encoding of a single code point, as byte values. -/
def utf8EncodeChar (c : Char) : List Nat :=
  let n := c.toNat
  if n < 0x80 then [n]
  else if n < 0x800 then
    [0xC0 ||| (n >>> 6), 0x80 ||| (n &&& 0x3F)]
  else if n < 0x10000 then
    [0xE0 ||| (n >>> 12), 0x80 ||| ((n >>> 6) &&& 0x3F), 0x80 ||| (n &&& 0x3F)]
  else
    [0xF0 ||| (n >>> 18), 0x80 ||| ((n >>> 12) &&& 0x3F),
     0x80 ||| ((n >>> 6) &&& 0x3F), 0x80 ||| (n &&& 0x3F)]

/-- Python `s.encode()`: UTF-8 bytes of a string. -/
def strBytes (s : String) : List Nat :=
  (s.data.map utf8EncodeChar).flatten

/-- 32-bit truncating left rotation. -/
def rotl32 (x n : Nat) : Nat :=
  ((x <<< n) ||| (x >>> (32 - n))) &&& 0xFFFFFFFF

/-- 32-bit truncating right rotation. -/
def rotr32 (x n : Nat) : Nat :=
  ((x >>> n) ||| (x <<< (32 - n))) &&& 0xFFFFFFFF

/-- 32-bit complement. -/
def not32 (x : Nat) : Nat :=
  0xFFFFFFFF ^^^ (x &&& 0xFFFFFFFF)

/-- Little-endian bytes of a 32-bit word. -/
def le4 (n : Nat) : List Nat :=
  [n &&& 255, (n >>> 8) &&& 255, (n >>> 16) &&& 255, (n >>> 24) &&& 255]

/-- Big-endian bytes of a 32-bit word. -/
def be4 (n : Nat) : List Nat :=
  [(n >>> 24) &&& 255, (n >>> 16) &&& 255, (n >>> 8) &&& 255, n &&& 255]

/-- Split a byte list into 32-bit words, little-endian (MD5). -/
def words32le : List Nat → List Nat
  | b0 :: b1 :: b2 :: b3 :: rest =>
      (b0 ||| (b1 <<< 8) ||| (b2 <<< 16) ||| (b3 <<< 24)) :: words32le rest
  | _ => []

/-- Split a byte list into 32-bit words, big-endian (SHA-256). -/
def words32be : List Nat → List Nat
  | b0 :: b1 :: b2 :: b3 :: rest =>
      ((b0 <<< 24) ||| (b1 <<< 16) ||| (b2 <<< 8) ||| b3) :: words32be rest
  | _ => []

/-- Lowercase hex digit for a value below 16. -/
def hexDigit (n : Nat) : Char :=
  if n < 10 then Char.ofNat (48 + n) else Char.ofNat (87 + n)

/-- Two lowercase hex digits of a byte. -/
def byteHexPair (b : Nat) : List Char :=
  [hexDigit (b / 16), hexDigit (b % 16)]

/-- Lowercase hex string of a byte list (`hexdigest`). -/
def bytesToHex (bs : List Nat) : String :=
  ⟨(bs.map byteHexPair).flatten⟩

/-- Fold bytes big-endian into a natural number: Python `int(hexdigest, 16)`. -/
def bytesToNatBE (bs : List Nat) : Nat :=
  bs.foldl (fun acc b => acc * 256 + b) 0

/-! ### MD5 (RFC 1321), used by the mock peer's patternless fallback -/

/-- MD5 round constants. -/
def md5K : List Nat :=
  [0xd76aa478, 0xe8c7b756, 0x242070db, 0xc1bdceee,
   0xf57c0faf, 0x4787c62a, 0xa8304613, 0xfd469501,
   0x698098d8, 0x8b44f7af, 0xffff5bb1, 0x895cd7be,
   0x6b901122, 0xfd987193, 0xa679438e, 0x49b40821,
   0xf61e2562, 0xc040b340, 0x265e5a51, 0xe9b6c7aa,
   0xd62f105d, 0x02441453, 0xd8a1e681, 0xe7d3fbc8,
   0x21e1cde6, 0xc33707d6, 0xf4d50d87, 0x455a14ed,
   0xa9e3e905, 0xfcefa3f8, 0x676f02d9, 0x8d2a4c8a,
   0xfffa3942, 0x8771f681, 0x6d9d6122, 0xfde5380c,
   0xa4beea44, 0x4bdecfa9, 0xf6bb4b60, 0xbebfbc70,
   0x289b7ec6, 0xeaa127fa, 0xd4ef3085, 0x04881d05,
   0xd9d4d039, 0xe6db99e5, 0x1fa27cf8, 0xc4ac5665,
   0xf4292244, 0x432aff97, 0xab9423a7, 0xfc93a039,
   0x655b59c3, 0x8f0ccc92, 0xffeff47d, 0x85845dd1,
   0x6fa87e4f, 0xfe2ce6e0, 0xa3014314, 0x4e0811a1,
   0xf7537e82, 0xbd3af235, 0x2ad7d2bb, 0xeb86d391]

/-- MD5 per-round left-rotation amounts. -/
def md5S : List Nat :=
  [7, 12, 17, 22, 7, 12, 17, 22, 7, 12, 17, 22, 7, 12, 17, 22,
   5, 9, 14, 20, 5, 9, 14, 20, 5, 9, 14, 20, 5, 9, 14, 20,
   4, 11, 16, 23, 4, 11, 16, 23, 4, 11, 16, 23, 4, 11, 16, 23,
   6, 10, 15, 21, 6, 10, 15, 21, 6, 10, 15, 21, 6, 10, 15, 21]

/-- One MD5 round on state `(a, b, c, d)` with message words `M`. -/
def md5Round (M : List Nat) (st : Nat × Nat × Nat × Nat) (i : Nat) :
    Nat × Nat × Nat × Nat :=
  let a := st.1
  let b := st.2.1
  let c := st.2.2.1
  let d := st.2.2.2
  let fg : Nat × Nat :=
    if i < 16 then ((b &&& c) ||| (not32 b &&& d), i)
    else if i < 32 then ((d &&& b) ||| (not32 d &&& c), (5 * i + 1) % 16)
    else if i < 48 then (b ^^^ c ^^^ d, (3 * i + 5) % 16)
    else (c ^^^ (b ||| not32 d), (7 * i) % 16)
  let f := (fg.1 + a + md5K.getD i 0 + M.getD fg.2 0) &&& 0xFFFFFFFF
  (d, (b + rotl32 f (md5S.getD i 0)) &&& 0xFFFFFFFF, b, c)

/-- MD5 compression of one 64-byte block into the running state. -/
def md5Compress (st : Nat × Nat × Nat × Nat) (block : List Nat) :
    Nat × Nat × Nat × Nat :=
  let M := words32le block
  let r := (List.range 64).foldl (md5Round M) st
  ((st.1 + r.1) &&& 0xFFFFFFFF,
   (st.2.1 + r.2.1) &&& 0xFFFFFFFF,
   (st.2.2.1 + r.2.2.1) &&& 0xFFFFFFFF,
   (st.2.2.2 + r.2.2.2) &&& 0xFFFFFFFF)

/-- Fold the MD5 compression over consecutive 64-byte blocks; the fuel
bounds the number of blocks (one byte of fuel per block is ample). -/
def md5Loop : Nat → (Nat × Nat × Nat × Nat) → List Nat → Nat × Nat × Nat × Nat
  | 0, st, _ => st
  | _, st, [] => st
  | fuel + 1, st, b :: rest =>
      md5Loop fuel (md5Compress st ((b :: rest).take 64)) ((b :: rest).drop 64)

/-- Fold the MD5 compression over a whole (padded) byte message. -/
def md5Blocks (st : Nat × Nat × Nat × Nat) (bs : List Nat) :
    Nat × Nat × Nat × Nat :=
  md5Loop bs.length st bs

/-- Little-endian bytes of a 64-bit length field. -/
def le8 (n : Nat) : List Nat :=
  [n &&& 255, (n >>> 8) &&& 255, (n >>> 16) &&& 255, (n >>> 24) &&& 255,
   (n >>> 32) &&& 255, (n >>> 40) &&& 255, (n >>> 48) &&& 255, (n >>> 56) &&& 255]

/-- Big-endian bytes of a 64-bit length field. -/
def be8 (n : Nat) : List Nat :=
  [(n >>> 56) &&& 255, (n >>> 48) &&& 255, (n >>> 40) &&& 255, (n >>> 32) &&& 255,
   (n >>> 24) &&& 255, (n >>> 16) &&& 255, (n >>> 8) &&& 255, n &&& 255]

/-- Merkle–Damgård padding for MD5 (length appended little-endian). -/
def md5Pad (msg : List Nat) : List Nat :=
  let len := msg.length
  let zeros := (119 - len % 64) % 64
  msg ++ [0x80] ++ List.replicate zeros 0 ++ le8 ((len * 8) % 2 ^ 64)

/-- MD5 digest bytes of a byte message. -/
def md5Digest (msg : List Nat) : List Nat :=
  let st := md5Blocks (0x67452301, 0xefcdab89, 0x98badcfe, 0x10325476) (md5Pad msg)
  le4 st.1 ++ le4 st.2.1 ++ le4 st.2.2.1 ++ le4 st.2.2.2

/-- Python's `int(hashlib.md5(s.encode()).hexdigest(), 16)`. -/
def md5Nat (s : String) : Nat :=
  bytesToNatBE (md5Digest (strBytes s))

/-! ### SHA-256 (FIPS 180-4), used by the mock peer's txId generation -/

/-- SHA-256 round constants (FIPS 180-4, written in decimal). -/
def sha256K : List Nat :=
  [1116352408, 1899447441, 3049323471, 3921009573, 961987163,
   1508970993, 2453635748, 2870763221, 3624381080, 310598401,
   607225278, 1426881987, 1925078388, 2162078206, 2614888103,
   3248222580, 3835390401, 4022224774, 264347078, 604807628,
   770255983, 1249150122, 1555081692, 1996064986, 2554220882,
   2821834349, 2952996808, 3210313671, 3336571891, 3584528711,
   113926993, 338241895, 666307205, 773529912, 1294757372,
   1396182291, 1695183700, 1986661051, 2177026350, 2456956037,
   2730485921, 2820302411, 3259730800, 3345764771, 3516065817,
   3600352804, 4094571909, 275423344, 430227734, 506948616,
   659060556, 883997877, 958139571, 1322822218, 1537002063,
   1747873779, 1955562222, 2024104815, 2227730452, 2361852424,
   2428436474, 2756734187, 3204031479, 3329325298]

/-- SHA-256 small sigma 0. -/
def sha256s0 (x : Nat) : Nat :=
  rotr32 x 7 ^^^ rotr32 x 18 ^^^ (x >>> 3)

/-- SHA-256 small sigma 1. -/
def sha256s1 (x : Nat) : Nat :=
  rotr32 x 17 ^^^ rotr32 x 19 ^^^ (x >>> 10)

/-- Extend the 16 message words to the 64-entry schedule. -/
def sha256Extend (w : List Nat) (k : Nat) : List Nat :=
  match k with
  | 0 => w
  | k + 1 =>
      let n := w.length
      let next :=
        (w.getD (n - 16) 0 + sha256s0 (w.getD (n - 15) 0) +
         w.getD (n - 7) 0 + sha256s1 (w.getD (n - 2) 0)) &&& 0xFFFFFFFF
      sha256Extend (w ++ [next]) k

/-- The eight-word SHA-256 working state. -/
structure Sha256St where
  a : Nat
  b : Nat
  c : Nat
  d : Nat
  e : Nat
  f : Nat
  g : Nat
  h : Nat
deriving DecidableEq, Repr

/-- One SHA-256 round on the eight-word state. -/
def sha256Round (w : List Nat) (st : Sha256St) (i : Nat) : Sha256St :=
  let S1 := rotr32 st.e 6 ^^^ rotr32 st.e 11 ^^^ rotr32 st.e 25
  let ch := (st.e &&& st.f) ^^^ (not32 st.e &&& st.g)
  let t1 := (st.h + S1 + ch + sha256K.getD i 0 + w.getD i 0) &&& 0xFFFFFFFF
  let S0 := rotr32 st.a 2 ^^^ rotr32 st.a 13 ^^^ rotr32 st.a 22
  let maj := (st.a &&& st.b) ^^^ (st.a &&& st.c) ^^^ (st.b &&& st.c)
  let t2 := (S0 + maj) &&& 0xFFFFFFFF
  { a := (t1 + t2) &&& 0xFFFFFFFF, b := st.a, c := st.b, d := st.c,
    e := (st.d + t1) &&& 0xFFFFFFFF, f := st.e, g := st.f, h := st.g }

/-- SHA-256 compression of one 64-byte block into the running state. -/
def sha256Compress (st : Sha256St) (block : List Nat) : Sha256St :=
  let w := sha256Extend (words32be block) 48
  let r := (List.range 64).foldl (sha256Round w) st
  { a := (st.a + r.a) &&& 0xFFFFFFFF, b := (st.b + r.b) &&& 0xFFFFFFFF,
    c := (st.c + r.c) &&& 0xFFFFFFFF, d := (st.d + r.d) &&& 0xFFFFFFFF,
    e := (st.e + r.e) &&& 0xFFFFFFFF, f := (st.f + r.f) &&& 0xFFFFFFFF,
    g := (st.g + r.g) &&& 0xFFFFFFFF, h := (st.h + r.h) &&& 0xFFFFFFFF }

/-- Fold the SHA-256 compression over consecutive 64-byte blocks; the fuel
bounds the number of blocks (one byte of fuel per block is ample). -/
def sha256Loop : Nat → Sha256St → List Nat → Sha256St
  | 0, st, _ => st
  | _, st, [] => st
  | fuel + 1, st, b :: rest =>
      sha256Loop fuel (sha256Compress st ((b :: rest).take 64)) ((b :: rest).drop 64)

/-- Fold the SHA-256 compression over a whole (padded) byte message. -/
def sha256Blocks (st : Sha256St) (bs : List Nat) : Sha256St :=
  sha256Loop bs.length st bs

/-- Merkle–Damgård padding for SHA-256 (length appended big-endian). -/
def sha256Pad (msg : List Nat) : List Nat :=
  let len := msg.length
  let zeros := (119 - len % 64) % 64
  msg ++ [0x80] ++ List.replicate zeros 0 ++ be8 ((len * 8) % 2 ^ 64)

/-- SHA-256 initial state. -/
def sha256Init : Sha256St :=
  { a := 1779033703, b := 3144134277, c := 1013904242, d := 2773480762,
    e := 1359893119, f := 2600822924, g := 528734635, h := 1541459225 }

/-- SHA-256 digest bytes of a byte message. -/
def sha256Digest (msg : List Nat) : List Nat :=
  let st := sha256Blocks sha256Init (sha256Pad msg)
  be4 st.a ++ be4 st.b ++ be4 st.c ++ be4 st.d ++
  be4 st.e ++ be4 st.f ++ be4 st.g ++ be4 st.h

/-- Python's `hashlib.sha256(s.encode()).hexdigest()`. -/
def sha256hex (s : String) : String :=
  bytesToHex (sha256Digest (strBytes s))

/-- Lowercase-hex-digit test (0-9, a-f). -/
def isHexDigit (c : Char) : Bool :=
  (48 ≤ c.toNat && c.toNat ≤ 57) || (97 ≤ c.toNat && c.toNat ≤ 102)

/-- A string made only of lowercase hex digits. -/
def isHexString (s : String) : Bool :=
  s.data.all isHexDigit

/-! ### Mock blockchain peer (`mock_peer/app.py`) -/

namespace MockPeer

/-- The fixed simulated peer identifier `PEER_ID`. -/
def PEER_ID : String :=
  "12D3KooWBhxQ7uXeY9zF8qG5nM4rL3pT6vN8wS2cK9jH1fX7yR4e"

/-- The artifact payload dict analyzed by `determine_success_from_artifact`:
the keys the function reads via `.get`, each possibly missing. -/
structure ArtifactData where
  title : Option String := none
  description : Option String := none
  keywords : List String := []
  artifactId : Option String := none
deriving DecidableEq, Repr

/-- `success_patterns` scanned over title and description. -/
def success_patterns : List String :=
  ["test_success", "force_success", "should_pass",
   "test-pass", "guarantee_success", "always_pass"]

/-- `success_keywords` matched exactly against the keyword list. -/
def success_keywords : List String :=
  ["test-success", "force-success", "should-pass"]

/-- `failure_patterns`, in declaration (= Python dict iteration) order. -/
def failure_patterns : List (String × String) :=
  [("test_gas", "Insufficient gas fees"),
   ("force_gas", "Insufficient gas fees"),
   ("test_network", "Network congestion - transaction rejected"),
   ("force_network", "Network congestion - transaction rejected"),
   ("test_timeout", "Peer connection timeout"),
   ("force_timeout", "Peer connection timeout"),
   ("test_invalid", "Invalid artifact data format"),
   ("force_invalid", "Invalid artifact data format"),
   ("test_fail", "Blockchain temporarily unavailable"),
   ("force_fail", "Blockchain temporarily unavailable"),
   ("test_rejected", "Transaction rejected by blockchain"),
   ("force_rejected", "Transaction rejected by blockchain")]

/-- `failure_keywords` lookup table. -/
def failure_keywords : List (String × String) :=
  [("test-fail", "Blockchain temporarily unavailable"),
   ("force-fail", "Blockchain temporarily unavailable"),
   ("test-gas", "Insufficient gas fees"),
   ("test-network", "Network congestion - transaction rejected")]

/-- `error_options` used by the patternless deterministic fallback. -/
def error_options : List String :=
  ["Network congestion - transaction rejected",
   "Insufficient gas fees",
   "Blockchain temporarily unavailable",
   "Peer connection timeout"]

/-- `determine_success_from_artifact`: maps the artifact payload to
`(success, error_message)` exactly as the Python function does, including
the deterministic MD5-based 95%-success fallback when no pattern matches. -/
def determine_success_from_artifact (a : ArtifactData) : Bool × Option String :=
  let title := strLower (a.title.getD "")
  let description := strLower (a.description.getD "")
  let keywords := a.keywords.map strLower
  if success_patterns.any (fun p => strContains title p || strContains description p) then
    (true, none)
  else if success_keywords.any (fun k => keywords.contains k) then
    (true, none)
  else
    match failure_patterns.find?
        (fun pe => strContains title pe.1 || strContains description pe.1) with
    | some pe => (false, some pe.2)
    | none =>
      match keywords.findSome? (fun k => failure_keywords.lookup k) with
      | some err => (false, some err)
      | none =>
        let artifact_id := a.artifactId.getD ""
        let hash_val := md5Nat artifact_id
        if hash_val % 100 < 95 then (true, none)
        else (false, some (error_options.getD (hash_val % error_options.length) ""))

/-- `POST /submit-artifact` request body (time-independent parts). -/
structure SubmissionRequest where
  artifactId : String
  data : ArtifactData
deriving DecidableEq, Repr

/-- `ArtifactSubmissionResponse` (time-independent parts: the `timestamp`
and `processing_time` fields are wall-clock readings and are not modelled). -/
structure SubmissionResponse where
  success : Bool
  txId : Option String := none
  peerId : Option String := none
  error : Option String := none
deriving DecidableEq, Repr

/-- Deterministic transaction id: `"0x" ++ sha256(f"{artifactId}-{PEER_ID}").hexdigest()[:64]`. -/
def mkTxId (artifactId : String) : String :=
  "0x" ++ strTake (sha256hex (artifactId ++ "-" ++ PEER_ID)) 64

/-- The `submit_artifact` endpoint body (minus latency simulation and
wall-clock fields): decide via `determine_success_from_artifact` on the
`data` payload, then build the success or failure response. -/
def submit_artifact (req : SubmissionRequest) : SubmissionResponse :=
  let r := determine_success_from_artifact req.data
  if r.1 then
    { success := true, txId := some (mkTxId req.artifactId), peerId := some PEER_ID }
  else
    { success := false, error := r.2, peerId := some PEER_ID }

end MockPeer

/-! ### Submission worker (`submission_worker/app.py`, `peer_client.py`) -/

namespace Worker

/-- Python truthiness of a possibly-missing string dict entry (`d.get(k)`):
truthy iff present and non-empty. -/
def truthy : Option String → Bool
  | none => false
  | some s => !s.isEmpty

/-- A submission outcome dict as consumed by `publish_artifact_submitted`
(the shape produced by `PeerClient.submit_artifact`). -/
structure SubmissionResult where
  success : Bool := false
  txId : Option String := none
  peerId : Option String := none
  error : Option String := none
deriving DecidableEq, Repr

/-- `publish_artifact_submitted`: the `artifact.submitted` message built key
by key as an association list, with `now` standing for
`datetime.now(timezone.utc).isoformat()`. -/
def publish_artifact_submitted (now artifact_id : String) (r : SubmissionResult) :
    List (String × String) :=
  let base := [("artifactId", artifact_id),
               ("submissionState", if r.success then "SUCCESS" else "FAILED"),
               ("submittedAt", now),
               ("version", "v1")]
  let m1 := if r.success && truthy r.txId then base ++ [("blockchainTxId", r.txId.getD "")] else base
  let m2 := if truthy r.peerId then m1 ++ [("peerId", r.peerId.getD "")] else m1
  if !r.success && truthy r.error then m2 ++ [("error", r.error.getD "")] else m2

/-- `process_artifact_submission`: the peer-client call is modelled as an
`Except` value (`.error e` is a raised exception with description `e`); the
result is the returned boolean together with the list of events published
to the submitted queue during the step. -/
def process_artifact_submission (now artifact_id : String)
    (peerCall : Except String SubmissionResult) :
    Bool × List (List (String × String)) :=
  match peerCall with
  | .ok r => (true, [publish_artifact_submitted now artifact_id r])
  | .error e =>
      (false,
       [publish_artifact_submitted now artifact_id
         { success := false, error := some ("Submission processing failed: " ++ e) }])

/-- Broker dispositions available to a consumer callback. -/
inductive Disposition where
  | ack
  | rejectNoRequeue
deriving DecidableEq, Repr

/-- A decoded `artifact.created` message: only the `artifactId` key matters
to the worker's control flow. -/
structure CreatedMessage where
  artifactId : Option String := none
deriving DecidableEq, Repr

/-- The worker's consumer `callback`: `body = none` is a JSON decode
failure; otherwise the parsed message. Returns the broker disposition and
the events published. -/
def worker_callback (now : String) (body : Option CreatedMessage)
    (peerCall : Except String SubmissionResult) :
    Disposition × List (List (String × String)) :=
  match body with
  | none => (.rejectNoRequeue, [])
  | some msg =>
      if truthy msg.artifactId then
        let r := process_artifact_submission now (msg.artifactId.getD "") peerCall
        (if r.1 then .ack else .rejectNoRequeue, r.2)
      else
        (.rejectNoRequeue, [])

/-! #### Peer client (`peer_client.py`) -/

/-- What came back (or failed to come back) from the one HTTP POST. -/
inductive PeerBody where
  | invalidJson (msg : String)
  | nonDict
  | dictNoSuccess
  | dictOk (r : SubmissionResult)
deriving DecidableEq, Repr

/-- The observable outcome of `self.session.post(...)`. -/
inductive HttpAttempt where
  | timeout
  | connectionError
  | response (status : Nat) (text : String) (body : PeerBody)
  | unexpected (msg : String)
deriving DecidableEq, Repr

/-- The exceptions `PeerClient.submit_artifact` can see in its `try` body. -/
inductive PyExc where
  | timeout
  | connError
  | httpError (status : Nat) (text : String)
  | valueError (msg : String)
  | unexpected (msg : String)
deriving DecidableEq, Repr

/-- The `try` body of `PeerClient.submit_artifact`: POST, `raise_for_status`
(4xx/5xx raise `HTTPError`), JSON-parse, dict check, `success`-field check. -/
def submit_attempt : HttpAttempt → Except PyExc SubmissionResult
  | .timeout => .error .timeout
  | .connectionError => .error .connError
  | .unexpected m => .error (.unexpected m)
  | .response status text body =>
      if 400 ≤ status ∧ status < 600 then .error (.httpError status text)
      else
        match body with
        | .invalidJson m => .error (.valueError m)
        | .nonDict => .error (.valueError "Invalid response format from peer")
        | .dictNoSuccess => .error (.valueError "Missing \x27success\x27 field in peer response")
        | .dictOk r => .ok r

/-- `PeerClient.submit_artifact`: every exception class is normalized into a
`success=false` result with that class's error message; `url` is the
`f"{peer_url}/submit-artifact"` endpoint the messages mention. -/
def submit_artifact (url : String) (o : HttpAttempt) : SubmissionResult :=
  match submit_attempt o with
  | .ok r => r
  | .error .timeout =>
      { success := false, error := some ("Timeout communicating with peer at " ++ url) }
  | .error .connError =>
      { success := false, error := some ("Connection error communicating with peer at " ++ url) }
  | .error (.httpError status text) =>
      { success := false, error := some ("HTTP error " ++ toString status ++ " from peer: " ++ text) }
  | .error (.valueError m) =>
      { success := false, error := some ("Invalid response from peer: " ++ m) }
  | .error (.unexpected m) =>
      { success := false, error := some ("Unexpected error communicating with peer: " ++ m) }

end Worker

/-! ### Submission listener (`submission_listener/app.py`) -/

namespace Listener

/-- A decoded `artifact.submitted` message: the keys the listener and its
schema care about, each possibly missing (`Option`). -/
structure SubmittedMessage where
  artifactId : Option String := none
  submissionState : Option String := none
  submittedAt : Option String := none
  version : Option String := none
  blockchainTxId : Option String := none
  peerId : Option String := none
  error : Option String := none
deriving DecidableEq, Repr

/-- Modelled from the spec: the JSON schema file
`artifact.submitted.v1.schema.json` is loaded from disk (`contracts/`, not
under `src/`). Per the spec it requires `artifactId`, `submissionState`
(enum `SUCCESS|FAILED|PENDING`), `submittedAt` and the `version` tag, with
`blockchainTxId`/`peerId`/`error` optional. -/
def schemaValid (m : SubmittedMessage) : Bool :=
  m.artifactId.isSome &&
  (match m.submissionState with
   | some s => ["SUCCESS", "FAILED", "PENDING"].contains s
   | none => false) &&
  m.submittedAt.isSome &&
  m.version.isSome

/-- `validate_message`: `jsonschema.validate` against the loaded schema,
collapsed to a boolean. -/
def validate_message (m : SubmittedMessage) : Bool :=
  schemaValid m

/-- The observable outcome of the single `requests.patch` call. -/
inductive UpdateCallOutcome where
  | ok
  | timeout
  | httpError (status : Nat) (text : String)
  | requestError (msg : String)
deriving DecidableEq, Repr

/-- The `patch_data` dict built by `update_artifact_status`, or `none` when
a mandatory key access (`submission_data['submissionState']` /
`['submittedAt']`) raises `KeyError` before any request is made. -/
def patchData (m : SubmittedMessage) : Option (List (String × String)) :=
  match m.submissionState, m.submittedAt with
  | some st, some sa =>
      let base := [("submissionState", st), ("submittedAt", sa)]
      let b1 := match m.blockchainTxId with
        | some v => base ++ [("blockchainTxId", v)]
        | none => base
      let b2 := match m.peerId with
        | some v => b1 ++ [("peerId", v)]
        | none => b1
      some b2
  | _, _ => none

/-- `update_artifact_status`: `none` models an escaping `KeyError` (no HTTP
call made); otherwise the returned boolean (`true` iff the PATCH succeeded)
together with the body of the one request sent. -/
def update_artifact_status (m : SubmittedMessage) (net : UpdateCallOutcome) :
    Option (Bool × List (String × String)) :=
  (patchData m).map
    (fun p => (match net with | .ok => true | _ => false, p))

/-- Broker dispositions available to the listener callback. -/
inductive Disposition where
  | ack
  | rejectNoRequeue
deriving DecidableEq, Repr

/-- The listener's consumer `callback`: `body = none` is a JSON decode
failure; otherwise the parsed message. Returns the broker disposition and
the list of PATCH request bodies sent to the system-of-record. -/
def listener_callback (body : Option SubmittedMessage) (net : UpdateCallOutcome) :
    Disposition × List (List (String × String)) :=
  match body with
  | none => (.rejectNoRequeue, [])
  | some m =>
      if validate_message m then
        match update_artifact_status m net with
        | some (true, p) => (.ack, [p])
        | some (false, p) => (.rejectNoRequeue, [p])
        | none => (.rejectNoRequeue, [])
      else
        (.rejectNoRequeue, [])

end Listener

/-! ### Validation of the hash embeddings against reference digests -/

example : md5Nat "" = 281949768489412648962353822266799178366 := by decide
example : md5Nat "a" = 16955237001963240173058271559858726497 := by decide
example : md5Nat "abc" = 191415658344158766168031473277922803570 := by decide
example : sha256hex "abc" =
    "ba7816bf8f01cfea414140de5dae2223b00361a396177a9cb410ff61f20015ad" := by decide
example : sha256hex "" =
    "e3b0c44298fc1c149afbf4c8996fb92427ae41e4649b934ca495991b7852b855" := by decide

/-! ### Helper lemmas -/

/-- Every byte of `be4 n` is below 256. -/
theorem be4_lt (n : Nat) : ∀ x ∈ be4 n, x < 256 := by
  simp only [be4, List.mem_cons, List.not_mem_nil, or_false]
  rintro x (rfl | rfl | rfl | rfl) <;>
    exact Nat.lt_succ_of_le (Nat.and_le_right)

/-- Every byte of a SHA-256 digest is below 256. -/
theorem sha256Digest_bytes_lt (msg : List Nat) :
    ∀ x ∈ sha256Digest msg, x < 256 := by
  intro x hx
  simp only [sha256Digest, List.mem_append] at hx
  rcases hx with ((((((h | h) | h) | h) | h) | h) | h) | h <;> exact be4_lt _ _ h

/-- A SHA-256 digest consists of exactly 32 bytes. -/
theorem sha256Digest_length (msg : List Nat) : (sha256Digest msg).length = 32 := by
  simp [sha256Digest, be4]

/-- Hex rendering of a byte list has two characters per byte. -/
theorem bytesToHex_length (bs : List Nat) : (bytesToHex bs).length = 2 * bs.length := by
  induction bs with
  | nil => rfl
  | cons b t ih =>
      simp only [bytesToHex, String.length, List.map_cons, List.flatten_cons,
        byteHexPair, List.length_append, List.length_cons, List.length_nil] at *
      omega

/-- `hexDigit` of a value below 16 is a lowercase hex digit. -/
theorem hexDigit_isHexDigit (n : Nat) (h : n < 16) : isHexDigit (hexDigit n) = true := by
  interval_cases n <;> decide

/-- Hex rendering of genuine bytes is a lowercase hex string. -/
theorem isHexString_bytesToHex (bs : List Nat) (h : ∀ b ∈ bs, b < 256) :
    isHexString (bytesToHex bs) = true := by
  induction bs with
  | nil => rfl
  | cons b t ih =>
      have hb : b < 256 := h b (by simp)
      have ht := ih (fun x hx => h x (by simp [hx]))
      simp only [isHexString, bytesToHex, List.map_cons, List.flatten_cons,
        List.all_append, byteHexPair, List.all_cons, List.all_nil,
        Bool.and_eq_true, Bool.and_true] at *
      refine ⟨⟨hexDigit_isHexDigit _ (by omega), hexDigit_isHexDigit _ (Nat.mod_lt _ (by omega))⟩, ht⟩

/-- The hex digest of SHA-256 has exactly 64 characters. -/
theorem sha256hex_length (s : String) : (sha256hex s).length = 64 := by
  rw [sha256hex, bytesToHex_length, sha256Digest_length]

/-- The hex digest of SHA-256 is a lowercase hex string. -/
theorem sha256hex_isHexString (s : String) : isHexString (sha256hex s) = true :=
  isHexString_bytesToHex _ (sha256Digest_bytes_lt _)

/-- Python slicing `s[:n]` is the identity when `n` covers the string. -/
theorem strTake_of_le (s : String) (n : Nat) (h : s.length ≤ n) : strTake s n = s := by
  cases s with
  | mk data =>
      simp only [strTake, String.length] at *
      exact congrArg String.mk (List.take_of_length_le h)

/-! ### Claim theorems -/

/-- C1: the spec claims every artifact free of failure markers is accepted
with no error, but the code's patternless fallback rejects 5 percent of
artifact ids deterministically: the artifact with id `"a"` and no title,
description or keywords (so no marker anywhere) is rejected with a
deterministic error, because `md5("a") mod 100 = 97 ≥ 95`. -/
theorem c1_markerless_artifact_rejected_by_fallback :
    MockPeer.determine_success_from_artifact
        { title := none, description := none, keywords := [], artifactId := some "a" } =
      (false, some "Insufficient gas fees") ∧
    md5Nat "a" % 100 = 97 := by decide

/-- C2 counterexample: for the outcome dict `{success: true}` (no txId), the
published event has `submissionState = SUCCESS` but no `blockchainTxId`
key, so "blockchainTxId present iff submissionState = SUCCESS" fails. -/
theorem c2_success_event_without_txid :
    (Worker.publish_artifact_submitted "2024-01-01T00:00:00+00:00" "art-1"
        { success := true }).lookup "submissionState" = some "SUCCESS" ∧
    (Worker.publish_artifact_submitted "2024-01-01T00:00:00+00:00" "art-1"
        { success := true }).lookup "blockchainTxId" = none := by decide

/-- C2 amended: `submissionState` is `SUCCESS` iff the outcome's success
flag is true (else `FAILED`); `blockchainTxId` is present iff the outcome
succeeded AND carries a non-empty `txId` (hence only if `SUCCESS`);
`peerId` is present iff the outcome carries a non-empty `peerId`; `error`
is present iff the outcome failed and carries a non-empty `error`. -/
theorem c2_event_field_invariants (now aid : String) (r : Worker.SubmissionResult) :
    ((Worker.publish_artifact_submitted now aid r).lookup "submissionState" = some "SUCCESS"
      ↔ r.success = true) ∧
    ((Worker.publish_artifact_submitted now aid r).lookup "submissionState" = some "FAILED"
      ↔ r.success = false) ∧
    (((Worker.publish_artifact_submitted now aid r).lookup "blockchainTxId").isSome = true
      ↔ (r.success = true ∧ Worker.truthy r.txId = true)) ∧
    (((Worker.publish_artifact_submitted now aid r).lookup "peerId").isSome = true
      ↔ Worker.truthy r.peerId = true) ∧
    (((Worker.publish_artifact_submitted now aid r).lookup "error").isSome = true
      ↔ (r.success = false ∧ Worker.truthy r.error = true)) := by
  rcases r with ⟨s, tx, pid, err⟩
  cases s <;> cases htx : Worker.truthy tx <;> cases hp : Worker.truthy pid <;>
    cases he : Worker.truthy err <;>
    simp [Worker.publish_artifact_submitted, htx, hp, he, List.lookup]

/-- C2 amended witness: a successful outcome with a non-empty txId yields
an event that does carry `blockchainTxId`. -/
theorem c2_event_field_invariants_witness :
    ((Worker.publish_artifact_submitted "t" "a"
        { success := true, txId := some "0xabc" }).lookup "blockchainTxId").isSome = true :=
  (c2_event_field_invariants "t" "a" { success := true, txId := some "0xabc" }).2.2.1.mpr
    ⟨rfl, by decide⟩

/-- C3: for every consumed creation message with a non-empty `artifactId`,
the worker publishes exactly one `artifact.submitted` event: the real
outcome's event when the peer-client call returns, and a synthesized
failure event carrying the caught exception's description when it raises
(the exception raised by the peer call is the fallible step; the broker
publish itself is the assumed-available substrate). -/
theorem c3_exactly_one_submitted_event
    (now id : String) (msg : Worker.CreatedMessage)
    (peerCall : Except String Worker.SubmissionResult)
    (hid : msg.artifactId = some id) (hne : id ≠ "") :
    (Worker.worker_callback now (some msg) peerCall).2.length = 1 ∧
    (∀ r, peerCall = Except.ok r →
      (Worker.worker_callback now (some msg) peerCall).2 =
        [Worker.publish_artifact_submitted now id r]) ∧
    (∀ e, peerCall = Except.error e →
      (Worker.worker_callback now (some msg) peerCall).2 =
        [Worker.publish_artifact_submitted now id
          { success := false, txId := none, peerId := none,
            error := some ("Submission processing failed: " ++ e) }]) := by
  have hempty : id.isEmpty = false := by
    cases hE : id.isEmpty
    · rfl
    · exact absurd ((String.isEmpty_iff id).mp hE) hne
  have htr : Worker.truthy (some id) = true := by
    simp [Worker.truthy, hempty]
  cases peerCall <;>
    simp [Worker.worker_callback, hid, htr, Worker.process_artifact_submission]

/-- C3 witness: a creation message for `art-3` whose peer call raises
`boom` yields exactly the synthesized failure event. -/
theorem c3_exactly_one_submitted_event_witness :
    (Worker.worker_callback "t0" (some { artifactId := some "art-3" })
        (Except.error "boom")).2 =
      [Worker.publish_artifact_submitted "t0" "art-3"
        { success := false, txId := none, peerId := none,
          error := some ("Submission processing failed: " ++ "boom") }] :=
  (c3_exactly_one_submitted_event "t0" "art-3" { artifactId := some "art-3" }
      (Except.error "boom") rfl (by decide)).2.2 "boom" rfl

/-- C4: on acceptance the mock peer's txId is `"0x"` followed by the full
64-character lowercase-hex SHA-256 digest of the artifactId concatenated
(through a hyphen) with the fixed `PEER_ID` — the `[:64]` truncation keeps
the whole digest — and any two accepted submissions with the same
artifactId receive the identical txId, whatever their payloads. -/
theorem c4_txid_is_sha256_and_deterministic
    (r1 r2 : MockPeer.SubmissionRequest)
    (h1 : (MockPeer.submit_artifact r1).success = true)
    (h2 : (MockPeer.submit_artifact r2).success = true)
    (hid : r1.artifactId = r2.artifactId) :
    (MockPeer.submit_artifact r1).txId =
      some ("0x" ++ sha256hex (r1.artifactId ++ "-" ++ MockPeer.PEER_ID)) ∧
    (sha256hex (r1.artifactId ++ "-" ++ MockPeer.PEER_ID)).length = 64 ∧
    isHexString (sha256hex (r1.artifactId ++ "-" ++ MockPeer.PEER_ID)) = true ∧
    (MockPeer.submit_artifact r2).txId = (MockPeer.submit_artifact r1).txId := by
  cases hb1 : (MockPeer.determine_success_from_artifact r1.data).1 with
  | false => rw [MockPeer.submit_artifact, hb1] at h1; simp at h1
  | true =>
      cases hb2 : (MockPeer.determine_success_from_artifact r2.data).1 with
      | false => rw [MockPeer.submit_artifact, hb2] at h2; simp at h2
      | true =>
          have htake : ∀ s : String, strTake (sha256hex s) 64 = sha256hex s :=
            fun s => strTake_of_le _ _ (le_of_eq (sha256hex_length s))
          refine ⟨?_, sha256hex_length _, sha256hex_isHexString _, ?_⟩
          · simp only [MockPeer.submit_artifact]
            simp [hb1, MockPeer.mkTxId, htake]
          · simp only [MockPeer.submit_artifact]
            simp [hb1, hb2, MockPeer.mkTxId, hid]

/-- C4 witness: two accepted submissions with id `a1` but different
payloads carry the same txId, namely the reference SHA-256 digest of
`a1-<PEER_ID>` computed by an independent implementation. -/
theorem c4_txid_is_sha256_and_deterministic_witness :
    (MockPeer.submit_artifact
        { artifactId := "a1", data := { title := some "test_success run" } }).txId =
      some "0x091c4881ec42975d6f9035b714a4f5884182fc450be8d07241569da1395a9ab6" ∧
    (MockPeer.submit_artifact
        { artifactId := "a1", data := { description := some "force_success demo" } }).txId =
      (MockPeer.submit_artifact
        { artifactId := "a1", data := { title := some "test_success run" } }).txId :=
  ⟨by decide,
   (c4_txid_is_sha256_and_deterministic
      { artifactId := "a1", data := { title := some "test_success run" } }
      { artifactId := "a1", data := { description := some "force_success demo" } }
      (by decide) (by decide) rfl).2.2.2⟩

/-- C5 counterexample: a non-2xx (3xx) response is NOT normalized into a
failure: `raise_for_status` raises only for 4xx/5xx, so a 301 response
whose body is a dict with a `success` field is passed through unchanged,
here with `success = true` and no error. -/
theorem c5_redirect_status_passes_through :
    Worker.submit_artifact "u"
        (Worker.HttpAttempt.response 301 "moved permanently"
          (Worker.PeerBody.dictOk { success := true, txId := some "0xfeed" })) =
      { success := true, txId := some "0xfeed", peerId := none, error := none } := by
  decide

/-- C5 amended: every failure mode — timeout, connection failure, HTTP
error status (4xx/5xx, the statuses `raise_for_status` raises for),
malformed-JSON body, non-dict body, body missing the mandatory `success`
field, and any other exception — is normalized into `success=false` with
that class's descriptive error string; nothing escapes the boundary (the
embedding is a total function), and a returned `success=true` can only be
the peer's own parsed response dict. -/
theorem c5_failure_modes_normalized (url : String) (o : Worker.HttpAttempt) :
    (o = Worker.HttpAttempt.timeout →
      Worker.submit_artifact url o =
        { success := false,
          error := some ("Timeout communicating with peer at " ++ url) }) ∧
    (o = Worker.HttpAttempt.connectionError →
      Worker.submit_artifact url o =
        { success := false,
          error := some ("Connection error communicating with peer at " ++ url) }) ∧
    (∀ s t b, o = Worker.HttpAttempt.response s t b → 400 ≤ s → s < 600 →
      Worker.submit_artifact url o =
        { success := false,
          error := some ("HTTP error " ++ toString s ++ " from peer: " ++ t) }) ∧
    (∀ s t m, o = Worker.HttpAttempt.response s t (Worker.PeerBody.invalidJson m) →
      ¬(400 ≤ s ∧ s < 600) →
      Worker.submit_artifact url o =
        { success := false, error := some ("Invalid response from peer: " ++ m) }) ∧
    (∀ s t, o = Worker.HttpAttempt.response s t Worker.PeerBody.nonDict →
      ¬(400 ≤ s ∧ s < 600) →
      Worker.submit_artifact url o =
        { success := false,
          error := some "Invalid response from peer: Invalid response format from peer" }) ∧
    (∀ s t, o = Worker.HttpAttempt.response s t Worker.PeerBody.dictNoSuccess →
      ¬(400 ≤ s ∧ s < 600) →
      Worker.submit_artifact url o =
        { success := false,
          error := some "Invalid response from peer: Missing \x27success\x27 field in peer response" }) ∧
    (∀ m, o = Worker.HttpAttempt.unexpected m →
      Worker.submit_artifact url o =
        { success := false,
          error := some ("Unexpected error communicating with peer: " ++ m) }) ∧
    ((Worker.submit_artifact url o).success = true →
      Worker.submit_attempt o = Except.ok (Worker.submit_artifact url o)) := by
  refine ⟨?_, ?_, ?_, ?_, ?_, ?_, ?_, ?_⟩
  · rintro rfl; rfl
  · rintro rfl; rfl
  · rintro s t b rfl h4 h6
    simp only [Worker.submit_artifact, Worker.submit_attempt]
    rw [if_pos ⟨h4, h6⟩]
  · rintro s t m rfl hn
    simp only [Worker.submit_artifact, Worker.submit_attempt]
    rw [if_neg hn]
  · rintro s t rfl hn
    simp only [Worker.submit_artifact, Worker.submit_attempt]
    rw [if_neg hn]; rfl
  · rintro s t rfl hn
    simp only [Worker.submit_artifact, Worker.submit_attempt]
    rw [if_neg hn]; rfl
  · rintro m rfl; rfl
  · intro hs
    cases o with
    | timeout => simp [Worker.submit_artifact, Worker.submit_attempt] at hs
    | connectionError => simp [Worker.submit_artifact, Worker.submit_attempt] at hs
    | unexpected m => simp [Worker.submit_artifact, Worker.submit_attempt] at hs
    | response s t b =>
        by_cases hc : 400 ≤ s ∧ s < 600
        · simp [Worker.submit_artifact, Worker.submit_attempt, hc] at hs
        · cases b with
          | invalidJson m =>
              simp [Worker.submit_artifact, Worker.submit_attempt, hc] at hs
          | nonDict => simp [Worker.submit_artifact, Worker.submit_attempt, hc] at hs
          | dictNoSuccess =>
              simp [Worker.submit_artifact, Worker.submit_attempt, hc] at hs
          | dictOk r => simp [Worker.submit_artifact, Worker.submit_attempt, hc]

/-- C5 amended witness: a timeout against the default local peer URL
produces the normalized timeout failure result. -/
theorem c5_failure_modes_normalized_witness :
    Worker.submit_artifact "http://localhost:8080/submit-artifact"
        Worker.HttpAttempt.timeout =
      { success := false,
        error := some ("Timeout communicating with peer at " ++
          "http://localhost:8080/submit-artifact") } :=
  (c5_failure_modes_normalized "http://localhost:8080/submit-artifact"
      Worker.HttpAttempt.timeout).1 rfl

/-- C6 counterexample: the title
`"Great TEST_SUCCESS but also test_gas here"` contains the failure marker
`test_gas` (mapped to "Insufficient gas fees" in the table), yet the
decision is `accepted=true` with no error, because success patterns are
checked first. -/
theorem c6_failure_marker_overridden_by_success_marker :
    strContains (strLower "Great TEST_SUCCESS but also test_gas here") "test_gas" = true ∧
    MockPeer.failure_patterns.lookup "test_gas" = some "Insufficient gas fees" ∧
    MockPeer.determine_success_from_artifact
        { title := some "Great TEST_SUCCESS but also test_gas here" } =
      (true, none) := by decide

/-- C6 amended: for every artifact whose lowercased title contains a
failure marker, PROVIDED no success pattern occurs in the title or
description and no success keyword occurs among the keywords, the decision
is `accepted=false` with the fixed error string of the first marker in
table declaration order that occurs in the title or description,
regardless of surrounding text and letter case. -/
theorem c6_first_matching_failure_marker_wins
    (a : MockPeer.ArtifactData)
    (hsp : MockPeer.success_patterns.any (fun p =>
        strContains (strLower (a.title.getD "")) p ||
        strContains (strLower (a.description.getD "")) p) = false)
    (hsk : MockPeer.success_keywords.any (fun k =>
        (a.keywords.map strLower).contains k) = false)
    (hmark : MockPeer.failure_patterns.any (fun pe =>
        strContains (strLower (a.title.getD "")) pe.1) = true) :
    ∃ pe ∈ MockPeer.failure_patterns,
      MockPeer.failure_patterns.find? (fun pe =>
        strContains (strLower (a.title.getD "")) pe.1 ||
        strContains (strLower (a.description.getD "")) pe.1) = some pe ∧
      MockPeer.determine_success_from_artifact a = (false, some pe.2) := by
  have hfind : (MockPeer.failure_patterns.find? (fun pe =>
      strContains (strLower (a.title.getD "")) pe.1 ||
      strContains (strLower (a.description.getD "")) pe.1)).isSome := by
    rw [List.find?_isSome]
    obtain ⟨pe, hmem, hp⟩ := List.any_eq_true.mp hmark
    exact ⟨pe, hmem, by simp [hp]⟩
  obtain ⟨pe, hpe⟩ := Option.isSome_iff_exists.mp hfind
  refine ⟨pe, List.mem_of_find?_eq_some hpe, hpe, ?_⟩
  simp at hsk
  simp [MockPeer.determine_success_from_artifact, hsp, hpe]
  exact hsk

/-- C6 amended witness: a title containing `test_network` and `test_gas`
(in that order) with no success marker is rejected, with the gas error,
since `test_gas` comes first in table declaration order. -/
theorem c6_first_matching_failure_marker_wins_witness :
    (MockPeer.determine_success_from_artifact
        { title := some "x test_network and test_gas y" }).1 = false := by
  obtain ⟨pe, hmem, hfind, heq⟩ :=
    c6_first_matching_failure_marker_wins
      { title := some "x test_network and test_gas y" } (by decide) (by decide) (by decide)
  simp [heq]

/-- C10: success patterns take precedence over failure markers — any
artifact whose title or description contains a success pattern is accepted
(in particular one that also contains a failure marker) — and failure
markers are matched against the description (part 2) and the keywords
(part 3), not only the title. -/
theorem c10_success_precedence_and_marker_scope (a : MockPeer.ArtifactData) :
    (MockPeer.success_patterns.any (fun p =>
        strContains (strLower (a.title.getD "")) p ||
        strContains (strLower (a.description.getD "")) p) = true →
      MockPeer.determine_success_from_artifact a = (true, none)) ∧
    (MockPeer.success_patterns.any (fun p =>
        strContains (strLower (a.title.getD "")) p ||
        strContains (strLower (a.description.getD "")) p) = false →
     MockPeer.success_keywords.any (fun k =>
        (a.keywords.map strLower).contains k) = false →
     MockPeer.failure_patterns.any (fun pe =>
        strContains (strLower (a.description.getD "")) pe.1) = true →
      (MockPeer.determine_success_from_artifact a).1 = false) ∧
    (MockPeer.success_patterns.any (fun p =>
        strContains (strLower (a.title.getD "")) p ||
        strContains (strLower (a.description.getD "")) p) = false →
     MockPeer.success_keywords.any (fun k =>
        (a.keywords.map strLower).contains k) = false →
     MockPeer.failure_patterns.any (fun pe =>
        strContains (strLower (a.title.getD "")) pe.1 ||
        strContains (strLower (a.description.getD "")) pe.1) = false →
     ∀ err, (a.keywords.map strLower).findSome?
        (fun k => MockPeer.failure_keywords.lookup k) = some err →
      MockPeer.determine_success_from_artifact a = (false, some err)) := by
  refine ⟨?_, ?_, ?_⟩
  · intro h
    simp [MockPeer.determine_success_from_artifact, h]
  · intro h1 h2 h3
    have hfind : (MockPeer.failure_patterns.find? (fun pe =>
        strContains (strLower (a.title.getD "")) pe.1 ||
        strContains (strLower (a.description.getD "")) pe.1)).isSome := by
      rw [List.find?_isSome]
      obtain ⟨pe, hmem, hp⟩ := List.any_eq_true.mp h3
      exact ⟨pe, hmem, by simp [hp]⟩
    obtain ⟨pe, hpe⟩ := Option.isSome_iff_exists.mp hfind
    simp at h2
    have hdet : MockPeer.determine_success_from_artifact a = (false, some pe.2) := by
      simp [MockPeer.determine_success_from_artifact, h1, hpe]
      exact h2
    simp [hdet]
  · intro h1 h2 h3 err herr
    have hnone : (MockPeer.failure_patterns.find? (fun pe =>
        strContains (strLower (a.title.getD "")) pe.1 ||
        strContains (strLower (a.description.getD "")) pe.1)) = none :=
      List.find?_eq_none.mpr (List.any_eq_false.mp h3)
    simp at h2
    simp [MockPeer.determine_success_from_artifact, h1, hnone, herr]
    exact h2

/-- C10 witness: the artifact of the C6 counterexample (title contains both
`test_success` and `test_gas`) is accepted via part 1; an artifact whose
only marker is the keyword `test-fail` is rejected with the keyword table's
error via part 3. -/
theorem c10_success_precedence_and_marker_scope_witness :
    MockPeer.determine_success_from_artifact
        { title := some "Great TEST_SUCCESS but also test_gas here" } = (true, none) ∧
    MockPeer.determine_success_from_artifact
        { title := some "plain doc", keywords := ["alpha", "TEST-FAIL"] } =
      (false, some "Blockchain temporarily unavailable") :=
  ⟨(c10_success_precedence_and_marker_scope
      { title := some "Great TEST_SUCCESS but also test_gas here" }).1 (by decide),
   (c10_success_precedence_and_marker_scope
      { title := some "plain doc", keywords := ["alpha", "TEST-FAIL"] }).2.2
     (by decide) (by decide) (by decide) "Blockchain temporarily unavailable" (by decide)⟩

/-- C7: a consumed submitted-event message that is malformed JSON
(`body = none`) or fails schema validation is rejected without requeue and
triggers zero system-of-record update calls. -/
theorem c7_invalid_message_rejected_no_update
    (body : Option Listener.SubmittedMessage) (net : Listener.UpdateCallOutcome)
    (h : body = none ∨ ∃ m, body = some m ∧ Listener.validate_message m = false) :
    Listener.listener_callback body net = (Listener.Disposition.rejectNoRequeue, []) := by
  rcases h with rfl | ⟨m, rfl, hm⟩
  · rfl
  · simp [Listener.listener_callback, hm]

/-- C7 witness: a submitted event missing `submittedAt` fails validation and
is rejected with no update call. -/
theorem c7_invalid_message_rejected_no_update_witness :
    Listener.validate_message
        { artifactId := some "a-1", submissionState := some "SUCCESS", version := some "v1" } = false ∧
    Listener.listener_callback
        (some { artifactId := some "a-1", submissionState := some "SUCCESS", version := some "v1" })
        Listener.UpdateCallOutcome.ok =
      (Listener.Disposition.rejectNoRequeue, []) :=
  ⟨by decide,
   c7_invalid_message_rejected_no_update _ Listener.UpdateCallOutcome.ok
     (Or.inr ⟨_, rfl, by decide⟩)⟩

/-- C8: for every schema-valid submitted event whose system-of-record call
fails (timeout, HTTP error, transport error), the listener makes exactly
one update call and rejects the message without requeue. -/
theorem c8_update_failure_single_call_reject
    (m : Listener.SubmittedMessage) (net : Listener.UpdateCallOutcome)
    (hv : Listener.validate_message m = true)
    (hf : net ≠ Listener.UpdateCallOutcome.ok) :
    (Listener.listener_callback (some m) net).1 = Listener.Disposition.rejectNoRequeue ∧
    (Listener.listener_callback (some m) net).2.length = 1 := by
  have hsch := hv
  simp [Listener.validate_message, Listener.schemaValid, Bool.and_eq_true] at hsch
  rcases hm1 : m.submissionState with _ | st
  · rw [hm1] at hsch; simp at hsch
  rcases hm2 : m.submittedAt with _ | sa
  · rw [hm2] at hsch; simp at hsch
  cases net with
  | ok => exact absurd rfl hf
  | timeout =>
      simp [Listener.listener_callback, hv, Listener.update_artifact_status,
        Listener.patchData, hm1, hm2]
  | httpError status text =>
      simp [Listener.listener_callback, hv, Listener.update_artifact_status,
        Listener.patchData, hm1, hm2]
  | requestError msg =>
      simp [Listener.listener_callback, hv, Listener.update_artifact_status,
        Listener.patchData, hm1, hm2]

/-- C8 witness: a valid FAILED event whose update call returns HTTP 500 is
rejected without requeue after exactly one call. -/
theorem c8_update_failure_single_call_reject_witness :
    (Listener.listener_callback
        (some { artifactId := some "art-8", submissionState := some "FAILED",
                submittedAt := some "t1", version := some "v1" })
        (Listener.UpdateCallOutcome.httpError 500 "internal server error")).1 =
      Listener.Disposition.rejectNoRequeue ∧
    (Listener.listener_callback
        (some { artifactId := some "art-8", submissionState := some "FAILED",
                submittedAt := some "t1", version := some "v1" })
        (Listener.UpdateCallOutcome.httpError 500 "internal server error")).2.length = 1 :=
  c8_update_failure_single_call_reject _ _ (by decide) (by decide)

/-- C9 counterexample: a schema-valid FAILED event carrying
`error = "Insufficient gas fees"` leads to a status-update request body that
contains the FAILED state but has NO `error` entry at all: the error string
is not forwarded to the system-of-record. -/
theorem c9_failed_event_error_not_forwarded :
    Listener.validate_message
        { artifactId := some "art-9", submissionState := some "FAILED",
          submittedAt := some "t1", version := some "v1",
          error := some "Insufficient gas fees" } = true ∧
    Listener.listener_callback
        (some { artifactId := some "art-9", submissionState := some "FAILED",
                submittedAt := some "t1", version := some "v1",
                error := some "Insufficient gas fees" })
        Listener.UpdateCallOutcome.ok =
      (Listener.Disposition.ack, [[("submissionState", "FAILED"), ("submittedAt", "t1")]]) ∧
    ([("submissionState", "FAILED"), ("submittedAt", "t1")] : List (String × String)).lookup
        "error" = none := by decide

/-- C9 amended: for every schema-valid FAILED submitted event, the single
status-update request records `submissionState = FAILED` and `submittedAt`,
but never contains an `error` entry — the failure reason is observable in
logs only, not in the system-of-record body. -/
theorem c9_failed_update_records_state_without_error
    (m : Listener.SubmittedMessage) (net : Listener.UpdateCallOutcome) (sa : String)
    (hv : Listener.validate_message m = true)
    (hst : m.submissionState = some "FAILED")
    (hsa : m.submittedAt = some sa) :
    (Listener.listener_callback (some m) net).2.length = 1 ∧
    ∀ p ∈ (Listener.listener_callback (some m) net).2,
      p.lookup "submissionState" = some "FAILED" ∧
      p.lookup "submittedAt" = some sa ∧
      "error" ∉ p.map Prod.fst := by
  rcases htx : m.blockchainTxId with _ | tx <;> rcases hpid : m.peerId with _ | pid <;>
    cases net <;>
    simp [Listener.listener_callback, hv, Listener.update_artifact_status,
      Listener.patchData, hst, hsa, htx, hpid, List.lookup]

/-- C9 amended witness: concrete FAILED event; its one update body lacks an
`error` entry. -/
theorem c9_failed_update_records_state_without_error_witness :
    (Listener.listener_callback
        (some { artifactId := some "art-9", submissionState := some "FAILED",
                submittedAt := some "t1", version := some "v1",
                error := some "Insufficient gas fees" })
        Listener.UpdateCallOutcome.ok).2.length = 1 ∧
    "error" ∉ ([("submissionState", "FAILED"), ("submittedAt", "t1")] :
        List (String × String)).map Prod.fst :=
  ⟨(c9_failed_update_records_state_without_error
      { artifactId := some "art-9", submissionState := some "FAILED",
        submittedAt := some "t1", version := some "v1",
        error := some "Insufficient gas fees" }
      Listener.UpdateCallOutcome.ok "t1" (by decide) rfl rfl).1,
   ((c9_failed_update_records_state_without_error
      { artifactId := some "art-9", submissionState := some "FAILED",
        submittedAt := some "t1", version := some "v1",
        error := some "Insufficient gas fees" }
      Listener.UpdateCallOutcome.ok "t1" (by decide) rfl rfl).2
      [("submissionState", "FAILED"), ("submittedAt", "t1")] (by decide)).2.2⟩

end OSC
